import Mathlib

/-!
Formal model of the CodeDeck inference service (CodeDeckService/app and
models/update_models_manifest.py), as a shallow embedding in Lean 4.

Python dictionaries keyed by strings are modelled as association lists with
insertion-order semantics; Python sets are modelled as duplicate-free lists;
floats appearing only as configuration defaults (temperature, top_p) are
modelled as rationals; I/O effects are modelled by passing the relevant
world state (directory listings, file contents) explicitly, with an
enumerated fault parameter standing for the exceptions the code catches.
-/

namespace CodeDeck

/-- One chat message, as produced by `api.py`: both the role and content keys
are always present (`ChatMessage` is a required-field pydantic model and the
dicts handed to the engine are built from it). -/
structure ChatMessage where
  role : String
  content : String
deriving DecidableEq

/-- Per-message line of `ModelEngine._format_messages` (model_loader.py
147–163): role system/user/assistant produce a labelled line; any other role
hits no branch of the if/elif chain, so the message contributes nothing. -/
def formatRolePart (m : ChatMessage) : Option String :=
  if m.role = "system" then some ("System: " ++ m.content)
  else if m.role = "user" then some ("Human: " ++ m.content)
  else if m.role = "assistant" then some ("Assistant: " ++ m.content)
  else none

/-- `ModelEngine._format_messages`: collect the per-message lines, append the
bare cue line, join with a blank line separator. -/
def formatMessages (msgs : List ChatMessage) : String :=
  String.intercalate "\n\n" (msgs.filterMap formatRolePart ++ ["Assistant:"])

/-- Spec-side role-label table, for refinement comparison with
`formatMessages`.  Written from the spec wording (PromptFormatter rule),
amended on the single point the code refutes: an unrecognized role yields no
label (its message is omitted) instead of the Human fallback. -/
def specRoleLabel (role : String) : Option String :=
  if role = "system" then some "System"
  else if role = "user" then some "Human"
  else if role = "assistant" then some "Assistant"
  else none

/-- Spec-side formatter body: for each message with a role label, emit the
line RoleLabel, colon, space, content; join all lines with a blank-line
separator; append a trailing cue with no content. -/
def specFormatMessages (msgs : List ChatMessage) : String :=
  String.intercalate "\n\n"
    ((msgs.filterMap fun m => (specRoleLabel m.role).map (fun lab => lab ++ ": " ++ m.content))
      ++ ["Assistant:"])

/-- Persona system-message injection of `chat_completions` (api.py 133–142).
`sm` is the resolved persona system_message.  The guard
`if persona.system_message and len(request.messages) > 0` is Python
truthiness: nothing happens when `sm` is empty or the list is empty.
Otherwise: prepend a fresh system message when the first message is not
role=system; overwrite the first message content when it is role=system with
empty content; leave the list untouched when it is role=system with
non-empty content. -/
def injectPersonaSystem (sm : String) (msgs : List ChatMessage) : List ChatMessage :=
  match msgs with
  | [] => []
  | m :: rest =>
    if sm = "" then m :: rest
    else if m.role ≠ "system" then { role := "system", content := sm } :: m :: rest
    else if m.content = "" then { role := m.role, content := sm } :: rest
    else m :: rest

/-- A message list has two leading system messages when its first two
elements both carry role=system. -/
def twoLeadingSystem : List ChatMessage → Bool
  | m1 :: m2 :: _ => m1.role = "system" && m2.role = "system"
  | _ => false

/-- A JSON body field of a pydantic request model: the caller may omit the
key, send an explicit null, or send a value. -/
inductive BodyField (α : Type) where
  | omitted
  | null
  | given (v : α)

/-- Pydantic parsing of `Optional[T] = Field(default, ...)` (api.py 32–39):
an omitted key takes the declared default, an explicit null parses to None,
a value parses to itself. -/
def parseOptionalField {α : Type} (dflt : α) : BodyField α → Option α
  | .omitted => some dflt
  | .null => none
  | .given v => some v

/-- Persona record (persona.py 17–57).  created_at is irrelevant to the
claims and omitted; float defaults are modelled as rationals. -/
structure Persona where
  id : String
  name : String
  model : String
  system_message : String
  description : String
  voice : Option String := none
  temperature : ℚ := 0.7
  max_tokens : Int := 512
  top_p : ℚ := 0.9
  tags : List String := []
  icon : String := "🤖"
deriving DecidableEq

/-- Persona overlay on the request temperature (api.py 125–127): after
pydantic parsing, substitute the persona default exactly when the parsed
field is None. -/
def resolvedTemperature (body : BodyField ℚ) (p : Persona) : Option ℚ :=
  match parseOptionalField (0.7 : ℚ) body with
  | none => some p.temperature
  | some v => some v

/-- Persona overlay on the request max_tokens (api.py 129–131), same shape
with declared default 512. -/
def resolvedMaxTokens (body : BodyField Int) (p : Persona) : Option Int :=
  match parseOptionalField (512 : Int) body with
  | none => some p.max_tokens
  | some v => some v

/-!  Streaming delivery (`stream_chat_response`, api.py 812–878). -/

/-- One server-sent event of the streamed chat response, abstracted from its
JSON serialization: the zero-content start chunk, the 2KB padding event, a
token chunk, the terminal DONE marker, and the structured error event
(type + message) emitted by the except handler. -/
inductive StreamEvent where
  | start (model : Option String)
  | padding
  | chunk (delta : String) (model : Option String)
  | done
  | error (kind : String) (message : String)
deriving DecidableEq

/-- Outcome of the backend token generator for one request: the text
fragments it yields in order, then either normal exhaustion (`err = none`)
or an exception carrying a message (`err = some msg`).  A failure before the
first token is `fragments = []`. -/
structure BackendStream where
  fragments : List String
  err : Option String

/-- `ModelEngine._generate_streaming_response` (model_loader.py 196–232):
each backend fragment becomes one chunk dict carrying the current model
name, and empty fragments are filtered out, not forwarded. -/
def generateStreamingChunks (model : Option String) (b : BackendStream) : List StreamEvent :=
  (b.fragments.filter (fun t => t ≠ "")).map (fun t => StreamEvent.chunk t model)

/-- Events yielded by the body of the try block of `stream_chat_response`,
paired with the exception that escapes it, if any: the start chunk and the
padding event are yielded unconditionally, then the generator loop yields
one event per chunk (the direct and non-direct branches emit identically),
and the DONE marker is reached only when the generator is exhausted without
raising. -/
def streamTryBody (model : Option String) (b : BackendStream) (directMode : Bool) :
    List StreamEvent × Option String :=
  let header := [StreamEvent.start model, StreamEvent.padding]
  let chunks := generateStreamingChunks model b
  let emitted := header ++ (if directMode then chunks else chunks)
  match b.err with
  | none => (emitted ++ [StreamEvent.done], none)
  | some msg => (emitted, some msg)

/-- `stream_chat_response`: the try body runs to completion or is cut short
by an exception, in which case the except handler emits one structured
error event (type internal_error) and the generator ends. -/
def streamChatResponse (model : Option String) (b : BackendStream) (directMode : Bool) :
    List StreamEvent :=
  match streamTryBody model b directMode with
  | (events, none) => events
  | (events, some msg) => events ++ [StreamEvent.error "internal_error" msg]

/-- An event that may legally end the stream: the DONE marker or the
structured error event. -/
def isTerminalEvent : StreamEvent → Bool
  | .done => true
  | .error _ _ => true
  | _ => false

/-- Recognizer for the structured error event. -/
def isErrorEvent : StreamEvent → Bool
  | .error _ _ => true
  | _ => false

/-!  Model lifecycle (`ModelEngine`, model_loader.py 39–262). -/

/-- One entry of the models manifest as parsed by `ModelConfig.from_dict`. -/
structure ModelConfig where
  name : String
  file : String
  description : String
  tags : List String
deriving DecidableEq

/-- The engine environment: whether llama-cpp-python is importable, which
backing files exist under the models directory, and whether backend
construction (`Llama(model_path=...)`) succeeds for a given file. -/
structure Env where
  llamaAvailable : Bool
  fileExists : String → Bool
  constructOk : String → Bool

/-- `ModelEngine` mutable state: the catalog dict (insertion-ordered
association list), the held backend handle (identified by the file it was
constructed from), the current model name, and the readiness flag. -/
structure EngineState where
  availableModels : List (String × ModelConfig)
  currentModel : Option String
  currentModelName : Option String
  isReady : Bool
deriving DecidableEq

/-- Python dict assignment `d[k] = v`: update in place when the key exists,
append otherwise. -/
def dictInsert {β : Type} (m : List (String × β)) (k : String) (v : β) : List (String × β) :=
  if m.any (fun p => p.1 = k) then
    m.map (fun p => if p.1 = k then (k, v) else p)
  else m ++ [(k, v)]

/-- `ModelEngine.load_model` (model_loader.py 81–121).  Unknown name or
missing llama binding: return False without touching state.  Otherwise the
try block first releases any held handle, then checks the backing file and
constructs the new backend; a missing file or a construction exception is
caught and reported as False, with the handle already gone and the current
model name untouched. -/
def loadModel (env : Env) (s : EngineState) (modelName : String) : Bool × EngineState :=
  match s.availableModels.lookup modelName with
  | none => (false, s)
  | some cfg =>
    if !env.llamaAvailable then (false, s)
    else
      let s1 := { s with currentModel := none }
      if !env.fileExists cfg.file then (false, s1)
      else if env.constructOk cfg.file then
        (true, { s1 with currentModel := some cfg.file, currentModelName := some modelName })
      else (false, s1)

/-- `ModelEngine.initialize` (model_loader.py 52–64), given the parsed
manifest contents: build the catalog dict, attempt to load the first
catalog entry (ignoring the boolean result), then set the readiness flag —
unconditionally, whether or not a load happened or succeeded. -/
def initEngine (env : Env) (manifest : List ModelConfig) : EngineState :=
  let avail := manifest.foldl (fun m cfg => dictInsert m cfg.name cfg) []
  let s0 : EngineState := ⟨avail, none, none, false⟩
  let s1 := match avail.head? with
    | some (n, _) => (loadModel env s0 n).2
    | none => s0
  { s1 with isReady := true }

/-- `ModelEngine.shutdown` (model_loader.py 256–262): release the handle and
clear readiness (the current model name is not cleared). -/
def shutdownEngine (s : EngineState) : EngineState :=
  { s with currentModel := none, isReady := false }

/-- Engine states reachable through the engine lifecycle: the post-initialize
state, followed by any interleaving of load_model and shutdown calls. -/
inductive Reachable (env : Env) : EngineState → Prop
  | init (manifest : List ModelConfig) : Reachable env (initEngine env manifest)
  | load (s : EngineState) (n : String) :
      Reachable env s → Reachable env (loadModel env s n).2
  | shutdown (s : EngineState) :
      Reachable env s → Reachable env (shutdownEngine s)

/-- Payload of `ModelEngine.get_health_status` (model_loader.py 247–254). -/
structure HealthStatus where
  model_loaded : Bool
  current_model : Option String
  available_models : Nat
  ready : Bool
deriving DecidableEq

/-- `get_health_status`: pure read of the engine state. -/
def getHealthStatus (s : EngineState) : HealthStatus :=
  { model_loaded := s.currentModel.isSome
    current_model := s.currentModelName
    available_models := s.availableModels.length
    ready := s.isReady }

/-!  Persona store (`PersonaManager`, persona.py 60–282). -/

/-- `Persona.validate` (persona.py 54–57): every required field among name,
model and system_message must be truthy, i.e. a non-empty string. -/
def validatePersona (p : Persona) : Bool :=
  p.name ≠ "" && p.model ≠ "" && p.system_message ≠ ""

/-- `PersonaManager` state: the in-memory dict keyed by id, the persisted
files (one JSON file per id under the storage path, modelled by their parsed
contents), and the loaded flag. -/
structure PersonaStore where
  personas : List (String × Persona)
  files : List (String × Persona)
  loaded : Bool
deriving DecidableEq

/-- `PersonaManager.save_persona` (persona.py 238–255): a persona failing
validation blocks the save (returns False) before any state is touched;
otherwise the in-memory dict and the persisted file are both updated. -/
def savePersona (st : PersonaStore) (p : Persona) : Bool × PersonaStore :=
  if !validatePersona p then (false, st)
  else (true, { st with
    personas := dictInsert st.personas p.id p
    files := dictInsert st.files p.id p })

/-- The three default personas of `_create_default_personas` (persona.py
107–229).  Their long system_message prose is abbreviated here to its
opening personality block — verbatim from the source — since only its
(non-)emptiness is ever inspected; every other field is verbatim.  All
three set `model` to the empty string (source comment: use system
default). -/
def defaultPersonas : List Persona :=
  [ { id := "assistant-default"
      name := "Default Assistant"
      model := ""
      system_message := "<personality>\nOpenness: 80%\nConscientiousness: 85%\nExtraversion: 70%\nAgreeableness: 90%\nNeuroticism: 15%\n</personality>"
      description := "General-purpose AI assistant with helpful, clear communication"
      voice := some "glados"
      icon := "🤖"
      tags := ["default", "helpful", "general"] }
  , { id := "coder-expert"
      name := "Code Expert"
      model := ""
      system_message := "<personality>\nOpenness: 95%\nConscientiousness: 90%\nExtraversion: 60%\nAgreeableness: 75%\nNeuroticism: 20%\n</personality>"
      description := "Expert programming assistant focused on clean, maintainable code"
      voice := some "jarvis"
      icon := "👨‍💻"
      tags := ["coding", "expert", "technical"] }
  , { id := "creative-writer"
      name := "Creative Writer"
      model := ""
      system_message := "<personality>\nOpenness: 98%\nConscientiousness: 70%\nExtraversion: 80%\nAgreeableness: 85%\nNeuroticism: 35%\n</personality>"
      description := "Creative writing assistant with focus on storytelling and imagination"
      voice := some "glados"
      icon := "✍️"
      tags := ["creative", "writing", "storytelling"] } ]

/-- `_create_default_personas`: save each default persona in turn (each save
result is discarded). -/
def createDefaultPersonas (st : PersonaStore) : PersonaStore :=
  defaultPersonas.foldl (fun s p => (savePersona s p).2) st

/-- `PersonaManager.load_personas` (persona.py 81–105): when the storage
directory holds no persona files, synthesize the defaults first; then read
every persisted file into the in-memory dict and mark the store loaded. -/
def loadPersonas (st : PersonaStore) : PersonaStore :=
  let st1 := if st.files = [] then createDefaultPersonas st else st
  { st1 with
    personas := st1.files.foldl (fun m f => dictInsert m f.1 f.2) st1.personas
    loaded := true }

/-- The store state of a fresh `PersonaManager` over an empty storage
directory. -/
def emptyPersonaStore : PersonaStore := ⟨[], [], false⟩

/-!  Manifest reconciliation (`update_models_manifest.py`).

The regular expressions of `_extract_neural_identity` and the patterns of
`COGNITIVE_PATTERNS` use only literal alternations, anchored literal
suffixes, and the classes `\d`, `\w`, `[-_\.]`, so they are embedded as
explicit character scanners: `re.search` of an alternation of literals is a
substring test for one of the alternatives, and each `re.sub` is a
left-to-right, non-overlapping, leftmost-match scan whose greedy `\d+`/`\w+`
parts are maximal-munch runs (unambiguous here, since each greedy run is
followed by a character outside its class). -/

/-- One descriptor of the models manifest (`CognitiveProfile`). -/
structure CognitiveProfile where
  name : String
  file : String
  description : String
  tags : List String
deriving DecidableEq

/-- Does the character list contain the pattern as a contiguous run? -/
def charsContain (pat : List Char) : List Char → Bool
  | [] => pat.isEmpty
  | c :: t => pat.isPrefixOf (c :: t) || charsContain pat t

/-- `re.search` of an alternation of literal words against a string. -/
def searchAnyLiteral (alternatives : List String) (s : String) : Bool :=
  alternatives.any (fun a => charsContain a.toList s.toList)

/-- One entry of `COGNITIVE_PATTERNS`: the literal alternatives of the
pattern, the tags it contributes, and its description. -/
structure CognitivePattern where
  alternatives : List String
  tags : List String
  description : String

/-- `NeuralArchitectureAnalyzer.COGNITIVE_PATTERNS` (update_models_manifest.py
44–80), in dict insertion order. -/
def cognitivePatterns : List CognitivePattern :=
  [ { alternatives := ["phi", "reasoning", "logic", "math"]
      tags := ["reasoning", "logic", "analytical"]
      description := "Logic-oriented neural architecture with enhanced reasoning pathways" }
  , { alternatives := ["code", "programming", "dev"]
      tags := ["code", "technical", "structured"]
      description := "Code-specialized cognitive model with technical reasoning patterns" }
  , { alternatives := ["chat", "instruct", "dolphin", "assistant"]
      tags := ["conversational", "adaptive", "empathetic"]
      description := "Conversational AI with strong instruction-following behavioral patterns" }
  , { alternatives := ["creative", "art", "story", "write"]
      tags := ["creative", "imaginative", "expressive"]
      description := "Creative neural architecture optimized for artistic expression" }
  , { alternatives := ["tiny", "mini", "small", "1b", "2b"]
      tags := ["efficient", "compact", "responsive"]
      description := "Compact neural architecture optimized for speed and efficiency" }
  , { alternatives := ["large", "big", "13b", "30b", "70b"]
      tags := ["comprehensive", "knowledgeable", "versatile"]
      description := "Large-scale neural architecture with extensive knowledge patterns" } ]

/-- `pathlib.PurePath.stem`: drop the extension of the final component; the
final dot counts as an extension separator only when it is neither the
first nor the last character of the name. -/
def pathStem (s : String) : String :=
  let cs := s.toList
  match cs.reverse.indexOf? '.' with
  | none => s
  | some j =>
    let i := cs.length - 1 - j
    if 0 < i ∧ i < cs.length - 1 then String.mk (cs.take i) else s

/-- Python `str.lower` on the ASCII filenames handled here. -/
def lowerAscii (s : String) : String :=
  String.mk (s.toList.map Char.toLower)

/-- Remove `suf` from the end of `cs` when it is a suffix. -/
def dropSuffix (cs suf : List Char) : Option (List Char) :=
  if suf.isSuffixOf cs then some (cs.take (cs.length - suf.length)) else none

/-- Python `\d` (ASCII digits; the inputs here are filenames). -/
def pyDigit (c : Char) : Bool := c.isDigit

/-- Python `\w` on ASCII input: letters, digits and underscore. -/
def pyWordChar (c : Char) : Bool := c.isAlphanum || c = '_'

/-- Run `re.sub(pattern, replacement, s)` given a matcher that, at a given
position, either fails or consumes at least one character and reports the
replacement plus the rest: scan left to right, replacing non-overlapping
leftmost matches.  Fuel is the length of the input, enough since every
match consumes at least one character. -/
def scanSub (matchAt : List Char → Option (List Char × List Char)) :
    Nat → List Char → List Char
  | 0, l => l
  | _ + 1, [] => []
  | fuel + 1, c :: t =>
    match matchAt (c :: t) with
    | some (repl, rest) => repl ++ scanSub matchAt fuel rest
    | none => c :: scanSub matchAt fuel t

/-- Matcher for `\.(gguf|bin|safetensors)$`: since the pattern is anchored
at the end, the substitution is a suffix strip. -/
def stripKnownExtension (cs : List Char) : List Char :=
  match dropSuffix cs ".gguf".toList with
  | some r => r
  | none =>
    match dropSuffix cs ".bin".toList with
    | some r => r
    | none =>
      match dropSuffix cs ".safetensors".toList with
      | some r => r
      | none => cs

/-- Matcher for one occurrence of `\.q\d+_\w+` (IGNORECASE): a dot, q, a
digit run, an underscore, a word-character run. -/
def matchQuantDot : List Char → Option (List Char × List Char)
  | '.' :: c :: rest =>
    if c.toLower = 'q' then
      match rest.span pyDigit with
      | (ds, '_' :: r2) =>
        if ds.isEmpty then none
        else
          match r2.span pyWordChar with
          | (ws, r3) => if ws.isEmpty then none else some ([], r3)
      | _ => none
    else none
  | _ => none

/-- Continuation for a trailing `(-|$)` group: the group consumes a hyphen
or requires the end of the string. -/
def hyphenOrEnd : List Char → Option (List Char)
  | [] => some []
  | '-' :: r => some r
  | _ => none

/-- Matcher for one occurrence of `-\d+b(-|$)`: a hyphen, a digit run, b,
then a consumed hyphen or the end of the string. -/
def matchSizeSuffix : List Char → Option (List Char × List Char)
  | '-' :: rest =>
    match rest.span pyDigit with
    | (ds, 'b' :: r2) =>
      if ds.isEmpty then none
      else
        match hyphenOrEnd r2 with
        | some r3 => some ([], r3)
        | none => none
    | _ => none
  | _ => none

/-- Matcher for one occurrence of `-(q\d+|fp\d+)(-|$)` (IGNORECASE). -/
def matchQuantWord : List Char → Option (List Char × List Char)
  | '-' :: c :: rest =>
    if c.toLower = 'q' then
      match rest.span pyDigit with
      | (ds, r2) =>
        if ds.isEmpty then none
        else
          match hyphenOrEnd r2 with
          | some r3 => some ([], r3)
          | none => none
    else if c.toLower = 'f' then
      match rest with
      | d :: r1 =>
        if d.toLower = 'p' then
          match r1.span pyDigit with
          | (ds, r2) =>
            if ds.isEmpty then none
            else
              match hyphenOrEnd r2 with
              | some r3 => some ([], r3)
              | none => none
        else none
      | [] => none
    else none
  | _ => none

/-- A separator character of the class `[-_\.]`. -/
def isSepChar (c : Char) : Bool := c = '-' || c = '_' || c = '.'

/-- Matcher for one occurrence of `[-_\.]+`, replaced by a single
underscore; the greedy run is maximal. -/
def matchSepRun : List Char → Option (List Char × List Char)
  | c :: t => if isSepChar c then some (['_'], t.dropWhile isSepChar) else none
  | [] => none

/-- Python `str.strip` with the single-character set underscore. -/
def stripUnderscores (l : List Char) : List Char :=
  ((l.dropWhile (fun c => c = '_')).reverse.dropWhile (fun c => c = '_')).reverse

/-- `NeuralArchitectureAnalyzer._extract_neural_identity`
(update_models_manifest.py 113–127): the four substitutions in source
order, then separator collapsing and underscore stripping. -/
def extractNeuralIdentity (s : String) : String :=
  let l0 := stripKnownExtension s.toList
  let l1 := scanSub matchQuantDot l0.length l0
  let l2 := scanSub matchSizeSuffix l1.length l1
  let l3 := scanSub matchQuantWord l2.length l2
  let l4 := scanSub matchSepRun l3.length l3
  String.mk (stripUnderscores l4)

/-- Order used to model Python string sorting: lexicographic on code
points, stated over the character lists so that it is kernel-computable. -/
def profileLE (p q : CognitiveProfile) : Prop := p.name.toList ≤ q.name.toList

instance : DecidableRel profileLE := fun p q =>
  (inferInstance : Decidable (p.name.toList ≤ q.name.toList))

instance : IsTotal CognitiveProfile profileLE :=
  ⟨fun a b => le_total a.name.toList b.name.toList⟩

instance : IsTrans CognitiveProfile profileLE :=
  ⟨fun _ _ _ h1 h2 => le_trans h1 h2⟩

/-- Python `sorted(key=lambda p: p.name)`/`list.sort(key=...)` on profiles:
a stable sort by name, modelled by insertion sort (which is stable for the
reflexive order used here). -/
def sortProfilesByName (l : List CognitiveProfile) : List CognitiveProfile :=
  l.insertionSort profileLE

/-- `NeuralArchitectureAnalyzer.analyze_cognitive_signature`
(update_models_manifest.py 82–111): lowercase the stem, clean the name,
union the tags of every matching pattern over the base tag set, take the
first matching description (or the generic one), and emit the tag set
sorted.  The Python set is modelled by deduplicating before sorting. -/
def analyzeCognitiveSignature (filename : String) : CognitiveProfile :=
  let baseName := lowerAscii (pathStem filename)
  let cleanName := extractNeuralIdentity baseName
  let matched := cognitivePatterns.filter (fun pr => searchAnyLiteral pr.alternatives baseName)
  let detectedTags := ["neural", "local"] ++ (matched.map (fun pr => pr.tags)).flatten
  let primaryDescription :=
    match matched with
    | [] => "General-purpose neural architecture with balanced cognitive capabilities"
    | pr :: _ => pr.description
  { name := cleanName
    file := filename
    description := primaryDescription
    tags := (detectedTags.dedup).insertionSort (fun a b => a.toList ≤ b.toList) }

/-- `ManifestSynchronizer.discover_neural_architectures`
(update_models_manifest.py 140–154): glob the model directory for gguf
files of non-zero size; the result is a set of names.  The directory is
modelled as a listing of (regular file name, size) pairs. -/
def discoverNeuralArchitectures (dir : List (String × Nat)) : List String :=
  (((dir.filter (fun f => ".gguf".toList.isSuffixOf f.1.toList && f.2 > 0)).map
    Prod.fst)).dedup

/-- Faults injected into one `synchronize_cognitive_manifest` run: no fault,
an exception while reading/parsing the existing manifest (caught inside
`load_existing_manifest`), or an exception during the final manifest write
(caught by the outer handler, after `open(..., "w")` has truncated the
file). -/
inductive SyncFault where
  | noFault
  | parseFault
  | writeFault
deriving DecidableEq

/-- State of the manifest file after a run: absent, holding a parsed
profile list (JSON serialization of profile lists is injective and
deterministic, so list equality models byte identity), or truncated by a
write that failed partway. -/
inductive ManifestFile where
  | absent
  | content (profiles : List CognitiveProfile)
  | truncated
deriving DecidableEq

/-- `ManifestSynchronizer.load_existing_manifest` (update_models_manifest.py
156–181): a missing file yields the empty list; a read/parse exception is
caught locally and likewise yields the profiles collected so far — the
empty list for a `json.load` failure. -/
def loadExistingManifest (mf : Option (List CognitiveProfile)) (fault : SyncFault) :
    List CognitiveProfile :=
  match mf with
  | none => []
  | some profiles => if fault = .parseFault then [] else profiles

/-- Result of one `synchronize_cognitive_manifest` run: the returned
boolean, the manifest file state it leaves behind, and the new/orphaned
file sets it computed. -/
structure SyncResult where
  ok : Bool
  manifest : ManifestFile
  newFiles : List String
  orphaned : List String
deriving DecidableEq

/-- `ManifestSynchronizer.synchronize_cognitive_manifest`
(update_models_manifest.py 183–237): discover, load the existing profiles,
diff the file sets, keep existing profiles whose file is still discovered
(when preserve_existing), classify the new files, sort by name and write.
A write fault is caught by the outer handler after the open-for-write has
already truncated the manifest, so it returns False with the file
truncated; every other run returns True with the file rewritten. -/
def synchronizeCognitiveManifest (dir : List (String × Nat))
    (mf : Option (List CognitiveProfile)) (preserveExisting : Bool)
    (fault : SyncFault) : SyncResult :=
  let discoveredFiles := discoverNeuralArchitectures dir
  let existingProfiles := loadExistingManifest mf fault
  let existingFiles := (existingProfiles.map (fun p => p.file)).dedup
  let newArchitectures := discoveredFiles.filter (fun f => !existingFiles.contains f)
  let orphanedEntries := existingFiles.filter (fun f => !discoveredFiles.contains f)
  let keptProfiles :=
    if preserveExisting then
      existingProfiles.filter (fun p => discoveredFiles.contains p.file)
    else []
  let updatedProfiles :=
    sortProfilesByName (keptProfiles ++ newArchitectures.map analyzeCognitiveSignature)
  match fault with
  | .writeFault =>
    { ok := false, manifest := .truncated
      newFiles := newArchitectures, orphaned := orphanedEntries }
  | _ =>
    { ok := true, manifest := .content updatedProfiles
      newFiles := newArchitectures, orphaned := orphanedEntries }

/-!  Claim theorems. -/

/-- Pointwise agreement of the code formatter line with the spec-side label
table (amended to omit unrecognized roles). -/
theorem formatRolePart_eq_spec (m : ChatMessage) :
    formatRolePart m = (specRoleLabel m.role).map (fun lab => lab ++ ": " ++ m.content) := by
  unfold formatRolePart specRoleLabel
  split_ifs <;> rfl

/-- C3 counterexample: the claim says an unrecognized role is treated as
Human, so formatting the single message (role=tool, content=x) should give
the line Human: x followed by the cue; the code instead drops the message
and emits the bare cue. -/
theorem formatMessages_unknown_role_counterexample :
    formatMessages [{ role := "tool", content := "x" }] = "Assistant:" ∧
    formatMessages [{ role := "tool", content := "x" }] ≠ "Human: x\n\nAssistant:" := by
  exact ⟨rfl, by decide⟩

/-- C3 (amended): the prompt formatter emits RoleLabel: content per message
with System/Human/Assistant for roles system/user/assistant, omits messages
with any other role, joins the lines with a blank-line separator and appends
a trailing Assistant: cue with no content — i.e. it coincides with the
spec-side formatter amended on the unrecognized-role point. -/
theorem formatMessages_eq_spec (msgs : List ChatMessage) :
    formatMessages msgs = specFormatMessages msgs := by
  unfold formatMessages specFormatMessages
  rw [funext formatRolePart_eq_spec]

/-- C2 counterexample: a request whose messages already begin with two
system messages (first one non-empty) is passed through unchanged, so the
resolved result does have two leading system messages, contrary to the
claim that the result never has two. -/
theorem injectPersona_two_system_counterexample :
    injectPersonaSystem "X"
        [{ role := "system", content := "a" }, { role := "system", content := "b" }]
      = [{ role := "system", content := "a" }, { role := "system", content := "b" }] ∧
    twoLeadingSystem (injectPersonaSystem "X"
        [{ role := "system", content := "a" }, { role := "system", content := "b" }]) = true := by
  exact ⟨rfl, rfl⟩

/-- C2 (amended): for a non-empty message list and a persona with non-empty
system_message, the injection prepends a system message when the first
message is not role=system, overwrites the first message content when it is
role=system with empty content, and leaves the list unchanged otherwise;
the result has two leading system messages only if the input already did;
and the two concrete examples of the claim hold. -/
theorem injectPersona_cases (sm : String) (m : ChatMessage) (rest : List ChatMessage)
    (hsm : sm ≠ "") :
    (m.role ≠ "system" →
      injectPersonaSystem sm (m :: rest) = { role := "system", content := sm } :: m :: rest) ∧
    (m.role = "system" → m.content = "" →
      injectPersonaSystem sm (m :: rest) = { role := "system", content := sm } :: rest) ∧
    (m.role = "system" → m.content ≠ "" →
      injectPersonaSystem sm (m :: rest) = m :: rest) ∧
    (twoLeadingSystem (injectPersonaSystem sm (m :: rest)) = true →
      twoLeadingSystem (m :: rest) = true) ∧
    injectPersonaSystem "X" [{ role := "user", content := "hi" }]
      = [{ role := "system", content := "X" }, { role := "user", content := "hi" }] ∧
    injectPersonaSystem "X"
        [{ role := "system", content := "orig" }, { role := "user", content := "hi" }]
      = [{ role := "system", content := "orig" }, { role := "user", content := "hi" }] := by
  refine ⟨?_, ?_, ?_, ?_, rfl, rfl⟩
  · intro h
    simp [injectPersonaSystem, hsm, h]
  · intro h1 h2
    simp [injectPersonaSystem, hsm, h1, h2]
  · intro h1 h2
    simp [injectPersonaSystem, hsm, h1, h2]
  · intro ht
    by_cases h1 : m.role = "system"
    · by_cases h2 : m.content = ""
      · rw [show injectPersonaSystem sm (m :: rest)
              = { role := "system", content := sm } :: rest by
            simp [injectPersonaSystem, hsm, h1, h2]] at ht
        cases rest with
        | nil => simp [twoLeadingSystem] at ht
        | cons r t =>
          simp [twoLeadingSystem] at ht
          simp [twoLeadingSystem, h1, ht]
      · rwa [show injectPersonaSystem sm (m :: rest) = m :: rest by
            simp [injectPersonaSystem, hsm, h1, h2]] at ht
    · rw [show injectPersonaSystem sm (m :: rest)
            = { role := "system", content := sm } :: m :: rest by
          simp [injectPersonaSystem, hsm, h1]] at ht
      simp [twoLeadingSystem, h1] at ht

/-- Witness for the amended C2 theorem at a concrete input. -/
theorem injectPersona_cases_witness :
    injectPersonaSystem "X" [{ role := "user", content := "hi" }]
      = [{ role := "system", content := "X" }, { role := "user", content := "hi" }] :=
  (injectPersona_cases "X" { role := "user", content := "hi" } [] (by decide)).2.2.2.2.1

/-- A persona with distinctive generation defaults, used to evaluate the
request-resolution pipeline. -/
def samplePersona : Persona :=
  { id := "persona-1", name := "Sample", model := "model-a", system_message := "sys"
    description := "desc", temperature := 0.1, max_tokens := 128 }

/-- C5: the persona defaults are substituted only when the caller sends an
explicit JSON null; a caller who simply omits temperature or max_tokens gets
the pydantic declaration defaults 0.7 and 512 instead of the persona values,
because the omitted key is filled in before the None check runs. -/
theorem persona_defaults_require_explicit_null :
    resolvedTemperature .omitted samplePersona = some 0.7 ∧
    samplePersona.temperature = 0.1 ∧ (0.7 : ℚ) ≠ 0.1 ∧
    resolvedTemperature .null samplePersona = some 0.1 ∧
    resolvedMaxTokens .omitted samplePersona = some 512 ∧
    samplePersona.max_tokens = 128 ∧ (512 : Int) ≠ 128 ∧
    resolvedMaxTokens .null samplePersona = some 128 := by
  refine ⟨rfl, rfl, by norm_num, rfl, rfl, rfl, by norm_num, rfl⟩

/-- C6: every default persona fails validation (its target model is the
empty string), so the synthesis pass persists nothing and loading an empty
store yields an empty store — both the in-memory dict and the persisted
files stay empty, contradicting the claimed non-empty store after load. -/
theorem default_personas_never_persisted :
    defaultPersonas.map validatePersona = [false, false, false] ∧
    defaultPersonas.map (fun p => (savePersona emptyPersonaStore p).1)
      = [false, false, false] ∧
    createDefaultPersonas emptyPersonaStore = emptyPersonaStore ∧
    loadPersonas emptyPersonaStore = { personas := [], files := [], loaded := true } := by
  exact ⟨rfl, rfl, rfl, rfl⟩

/-- C1: every streamed chat response starts with the start event then the
padding event, then one event per (non-empty) token chunk in backend order;
it ends with the DONE marker when the backend is exhausted normally, and
with a single structured error event as the final event when the backend
raises at any point (including before the first token); no event before the
final one is an error event, and the direct/proxied delivery modes emit the
same event sequence. -/
theorem streamChatResponse_terminal (model : Option String) (b : BackendStream)
    (directMode : Bool) :
    (streamChatResponse model b directMode).take 2 = [.start model, .padding] ∧
    (b.err = none →
      streamChatResponse model b directMode
        = [.start model, .padding] ++ generateStreamingChunks model b ++ [.done]) ∧
    (∀ msg, b.err = some msg →
      streamChatResponse model b directMode
        = [.start model, .padding] ++ generateStreamingChunks model b
            ++ [.error "internal_error" msg]) ∧
    (∃ e, (streamChatResponse model b directMode).getLast? = some e ∧
      isTerminalEvent e = true) ∧
    (∀ e ∈ (streamChatResponse model b directMode).dropLast, isErrorEvent e = false) ∧
    streamChatResponse model b true = streamChatResponse model b false := by
  obtain ⟨frags, err⟩ := b
  have hmode : streamChatResponse model ⟨frags, err⟩ true
      = streamChatResponse model ⟨frags, err⟩ false := rfl
  have hdrop : ∀ e ∈ [StreamEvent.start model, StreamEvent.padding]
        ++ generateStreamingChunks model ⟨frags, err⟩, isErrorEvent e = false := by
    intro e he
    rcases List.mem_append.mp he with h | h
    · simp only [List.mem_cons, List.not_mem_nil, or_false] at h
      rcases h with rfl | rfl <;> rfl
    · obtain ⟨t, _, rfl⟩ := List.mem_map.mp h
      rfl
  cases err with
  | none =>
    have hev : streamChatResponse model ⟨frags, none⟩ directMode
        = ([.start model, .padding] ++ generateStreamingChunks model ⟨frags, none⟩)
            ++ [.done] := by
      simp [streamChatResponse, streamTryBody]
    refine ⟨?_, fun _ => by rw [hev, List.append_assoc], ?_, ?_, ?_, hmode⟩
    · rw [hev]
      cases generateStreamingChunks model ⟨frags, none⟩ <;> rfl
    · intro msg hmsg
      exact absurd hmsg (by simp)
    · exact ⟨.done, by rw [hev]; exact List.getLast?_concat _, rfl⟩
    · rw [hev, List.dropLast_concat]
      exact hdrop
  | some msg0 =>
    have hev : streamChatResponse model ⟨frags, some msg0⟩ directMode
        = ([.start model, .padding] ++ generateStreamingChunks model ⟨frags, some msg0⟩)
            ++ [.error "internal_error" msg0] := by
      simp [streamChatResponse, streamTryBody]
    refine ⟨?_, ?_, ?_, ?_, ?_, hmode⟩
    · rw [hev]
      cases generateStreamingChunks model ⟨frags, some msg0⟩ <;> rfl
    · intro hnone
      exact absurd hnone (by simp)
    · intro msg hmsg
      obtain rfl : msg0 = msg := by injection hmsg
      rw [hev, List.append_assoc]
    · exact ⟨.error "internal_error" msg0, by rw [hev]; exact List.getLast?_concat _, rfl⟩
    · rw [hev, List.dropLast_concat]
      exact hdrop

/-- Witness for the C1 theorem: a backend that yields two non-empty
fragments and one empty fragment, then raises. -/
theorem streamChatResponse_terminal_witness :
    streamChatResponse (some "m") ⟨["a", "", "b"], some "boom"⟩ false
      = [.start (some "m"), .padding, .chunk "a" (some "m"), .chunk "b" (some "m"),
          .error "internal_error" "boom"] := by
  have h := (streamChatResponse_terminal (some "m") ⟨["a", "", "b"], some "boom"⟩
    false).2.2.1 "boom" rfl
  exact h.trans rfl

/-- An environment with no backing files and a failing backend
constructor. -/
def envBare : Env := ⟨true, fun _ => false, fun _ => false⟩

/-- C4 counterexample: initializing over an empty manifest is a reachable
engine lifecycle step that sets the readiness flag while no model handle is
held, so readiness is not equivalent to holding a handle. -/
theorem engine_ready_without_handle_counterexample :
    Reachable envBare (initEngine envBare []) ∧
    (initEngine envBare []).isReady = true ∧
    (initEngine envBare []).currentModel = none :=
  ⟨Reachable.init [], rfl, rfl⟩

/-- load_model never modifies the readiness flag. -/
theorem loadModel_isReady (env : Env) (s : EngineState) (n : String) :
    ((loadModel env s n).2).isReady = s.isReady := by
  rcases h : List.lookup n s.availableModels with _ | cfg
  · simp [loadModel, h]
  · by_cases h1 : env.llamaAvailable = true <;>
      by_cases h2 : env.fileExists cfg.file = true <;>
      by_cases h3 : env.constructOk cfg.file = true <;>
      simp [loadModel, h, h1, h2, h3]

/-- load_model never modifies the catalog. -/
theorem loadModel_availableModels (env : Env) (s : EngineState) (n : String) :
    ((loadModel env s n).2).availableModels = s.availableModels := by
  rcases h : List.lookup n s.availableModels with _ | cfg
  · simp [loadModel, h]
  · by_cases h1 : env.llamaAvailable = true <;>
      by_cases h2 : env.fileExists cfg.file = true <;>
      by_cases h3 : env.constructOk cfg.file = true <;>
      simp [loadModel, h, h1, h2, h3]

/-- C4 (amended): loading model A and then model B, both succeeding, leaves
exactly one handle held — B's, constructed from B's backing file — with the
current name set to B; load_model never touches the readiness flag, which is
instead set true unconditionally at the end of initialization (and cleared
only by shutdown). -/
theorem loadModel_swap_then_ready (env : Env) (s : EngineState) (A B : String)
    (cfgA cfgB : ModelConfig)
    (hA : List.lookup A s.availableModels = some cfgA)
    (hB : List.lookup B s.availableModels = some cfgB)
    (hll : env.llamaAvailable = true)
    (hfa : env.fileExists cfgA.file = true) (hca : env.constructOk cfgA.file = true)
    (hfb : env.fileExists cfgB.file = true) (hcb : env.constructOk cfgB.file = true) :
    (loadModel env s A).1 = true ∧
    ((loadModel env s A).2).currentModel = some cfgA.file ∧
    (loadModel env ((loadModel env s A).2) B).1 = true ∧
    ((loadModel env ((loadModel env s A).2) B).2).currentModel = some cfgB.file ∧
    ((loadModel env ((loadModel env s A).2) B).2).currentModelName = some B ∧
    ((loadModel env ((loadModel env s A).2) B).2).isReady = s.isReady ∧
    (∀ manifest : List ModelConfig, (initEngine env manifest).isReady = true) := by
  have h1 : loadModel env s A
      = (true, { s with currentModel := some cfgA.file, currentModelName := some A }) := by
    simp [loadModel, hA, hll, hfa, hca]
  have h2 : loadModel env ((loadModel env s A).2) B
      = (true, { s with currentModel := some cfgB.file, currentModelName := some B }) := by
    rw [h1]
    simp [loadModel, hB, hll, hfb, hcb]
  refine ⟨by rw [h1], by rw [h1], by rw [h2], by rw [h2], by rw [h2], by rw [h2], ?_⟩
  intro manifest
  rfl

/-- Witness catalog entry A. -/
def cfgSampleA : ModelConfig := ⟨"A", "a.gguf", "model A", []⟩

/-- Witness catalog entry B. -/
def cfgSampleB : ModelConfig := ⟨"B", "b.gguf", "model B", []⟩

/-- An environment where every backing file exists and construction
succeeds. -/
def envAll : Env := ⟨true, fun _ => true, fun _ => true⟩

/-- A ready engine state holding catalog entries A and B. -/
def engineAB : EngineState := ⟨[("A", cfgSampleA), ("B", cfgSampleB)], none, none, true⟩

/-- Witness for the amended C4 theorem at a concrete catalog. -/
theorem loadModel_swap_then_ready_witness :
    ((loadModel envAll ((loadModel envAll engineAB "A").2) "B").2).currentModel
      = some "b.gguf" ∧
    ((loadModel envAll ((loadModel envAll engineAB "A").2) "B").2).currentModelName
      = some "B" := by
  have h := loadModel_swap_then_ready envAll engineAB "A" "B" cfgSampleA cfgSampleB
    rfl rfl rfl rfl rfl rfl rfl
  exact ⟨h.2.2.2.1, h.2.2.2.2.1⟩

/-- C10: calling load_model from a state holding a handle, with a name that
is in the catalog but whose backing file is missing or whose backend
construction throws, returns false with the previous handle already
released: the handle slot is None while the current-model-name field still
holds the previous name, so the health status reports model_loaded=false
together with a non-null current_model. -/
theorem loadModel_failure_frame (env : Env) (s : EngineState) (n : String)
    (cfg : ModelConfig) (prevHandle prevName : String)
    (hheld : s.currentModel = some prevHandle)
    (hname : s.currentModelName = some prevName)
    (hcfg : List.lookup n s.availableModels = some cfg)
    (hll : env.llamaAvailable = true)
    (hfail : env.fileExists cfg.file = false ∨ env.constructOk cfg.file = false) :
    (loadModel env s n).1 = false ∧
    ((loadModel env s n).2).currentModel = none ∧
    ((loadModel env s n).2).currentModelName = some prevName ∧
    getHealthStatus ((loadModel env s n).2)
      = { model_loaded := false, current_model := some prevName,
          available_models := s.availableModels.length, ready := s.isReady } := by
  have hload : loadModel env s n = (false, { s with currentModel := none }) := by
    cases hf : env.fileExists cfg.file with
    | false => simp [loadModel, hcfg, hll, hf]
    | true =>
      have hc : env.constructOk cfg.file = false := by
        rcases hfail with h | h
        · rw [hf] at h; cases h
        · exact h
      simp [loadModel, hcfg, hll, hf, hc]
  rw [hload]
  exact ⟨rfl, rfl, hname, by simp [getHealthStatus, hname]⟩

/-- A state holding A's handle over the A/B catalog, in an environment with
no backing files. -/
def engineHoldingA : EngineState :=
  ⟨[("A", cfgSampleA), ("B", cfgSampleB)], some "a.gguf", some "A", true⟩

/-- Witness for the C10 theorem: swapping to B while B's file is missing. -/
theorem loadModel_failure_frame_witness :
    (loadModel envBare engineHoldingA "B").1 = false ∧
    ((loadModel envBare engineHoldingA "B").2).currentModel = none ∧
    ((loadModel envBare engineHoldingA "B").2).currentModelName = some "A" := by
  have h := loadModel_failure_frame envBare engineHoldingA "B" cfgSampleB "a.gguf" "A"
    rfl rfl rfl rfl (Or.inl rfl)
  exact ⟨h.1, h.2.1, h.2.2.1⟩

/-- C8: reconciling a directory holding exactly tinymodel-1b.Q4_K_M.gguf
against an empty manifest produces exactly one descriptor, whose display
name is tinymodel (extension, quantization marker and size suffix stripped)
and whose tag set is the base set {neural, local} plus
{efficient, compact, responsive} (emitted sorted). -/
theorem reconcile_tinymodel :
    synchronizeCognitiveManifest [("tinymodel-1b.Q4_K_M.gguf", 1000000)] (some []) true
        .noFault
      = { ok := true
          manifest := .content
            [{ name := "tinymodel"
               file := "tinymodel-1b.Q4_K_M.gguf"
               description := "Compact neural architecture optimized for speed and efficiency"
               tags := ["compact", "efficient", "local", "neural", "responsive"] }]
          newFiles := ["tinymodel-1b.Q4_K_M.gguf"]
          orphaned := [] } := by
  rfl

/-- A manifest descriptor used to exercise the failure paths. -/
def sampleProfile : CognitiveProfile := ⟨"alpha", "a.gguf", "older entry", ["neural"]⟩

/-- C9 counterexample: with the existing manifest unreadable (parse
failure), reconcile returns true — not false as claimed — and rewrites the
manifest from scratch, dropping the previously persisted descriptor. -/
theorem reconcile_parse_failure_counterexample :
    (synchronizeCognitiveManifest [("a.gguf", 5)] (some [sampleProfile]) true
      .parseFault).ok = true ∧
    (synchronizeCognitiveManifest [("a.gguf", 5)] (some [sampleProfile]) true
      .parseFault).manifest ≠ .content [sampleProfile] := by
  exact ⟨rfl, by decide⟩

/-- C9 (amended): reconcile never raises and reports its outcome as a
boolean; it returns false exactly when the final manifest write fails, in
which case the manifest file is left truncated (the write is
truncate-then-write, not all-or-nothing, so the prior contents are lost); a
read/parse failure of the existing manifest is swallowed inside the loader
(treated as an empty manifest) and reconcile still returns true, rebuilding
the manifest from discovery alone. -/
theorem reconcile_fault_reporting (dir : List (String × Nat))
    (mf : Option (List CognitiveProfile)) (preserveExisting : Bool) :
    (synchronizeCognitiveManifest dir mf preserveExisting .noFault).ok = true ∧
    (synchronizeCognitiveManifest dir mf preserveExisting .parseFault).ok = true ∧
    (synchronizeCognitiveManifest dir mf preserveExisting .parseFault).manifest
      = .content (sortProfilesByName
          (((discoverNeuralArchitectures dir).filter
              (fun f => !(([] : List String).contains f))).map analyzeCognitiveSignature)) ∧
    (synchronizeCognitiveManifest dir mf preserveExisting .writeFault).ok = false ∧
    (synchronizeCognitiveManifest dir mf preserveExisting .writeFault).manifest
      = .truncated := by
  refine ⟨rfl, rfl, ?_, rfl, rfl⟩
  cases mf <;> cases preserveExisting <;> rfl

/-- Classification preserves the file field. -/
theorem analyzeCognitiveSignature_file (f : String) :
    (analyzeCognitiveSignature f).file = f := rfl

/-- C7: manifest reconciliation (with preserve_existing, as the tool runs
it) is idempotent — for every model directory and manifest state, a second
no-fault run over the manifest produced by the first writes back the very
same profile list (hence a byte-identical manifest file, serialization
being deterministic), and its new-file and orphaned sets are both empty. -/
theorem reconcile_idempotent (dir : List (String × Nat))
    (mf : Option (List CognitiveProfile)) :
    ∃ m1, (synchronizeCognitiveManifest dir mf true .noFault).manifest = .content m1 ∧
      (synchronizeCognitiveManifest dir (some m1) true .noFault).ok = true ∧
      (synchronizeCognitiveManifest dir (some m1) true .noFault).manifest = .content m1 ∧
      (synchronizeCognitiveManifest dir (some m1) true .noFault).newFiles = [] ∧
      (synchronizeCognitiveManifest dir (some m1) true .noFault).orphaned = [] := by
  set D := discoverNeuralArchitectures dir with hD
  set ep := loadExistingManifest mf .noFault with hep
  set kept := ep.filter (fun p => D.contains p.file) with hkept
  set newA := D.filter (fun f => !((ep.map (fun p => p.file)).dedup.contains f)) with hnewA
  set m1 := sortProfilesByName (kept ++ newA.map analyzeCognitiveSignature) with hm1
  have hfile : ∀ p ∈ m1, D.contains p.file = true := by
    intro p hp
    have hp' : p ∈ kept ++ newA.map analyzeCognitiveSignature := by
      rw [hm1] at hp
      exact (List.mem_insertionSort profileLE).mp hp
    rcases List.mem_append.mp hp' with h | h
    · exact (List.mem_filter.mp h).2
    · obtain ⟨f, hfmem, rfl⟩ := List.mem_map.mp h
      have hfD : f ∈ D := (List.mem_filter.mp hfmem).1
      show D.contains f = true
      exact List.elem_iff.mpr hfD
  have hcover : ∀ f ∈ D, f ∈ m1.map (fun p => p.file) := by
    intro f hf
    cases hin : ((ep.map (fun p => p.file)).dedup.contains f) with
    | true =>
      have hmap : f ∈ ep.map (fun p => p.file) :=
        List.mem_dedup.mp (List.elem_iff.mp hin)
      obtain ⟨p, hpep, hpf⟩ := List.mem_map.mp hmap
      have hpk : p ∈ kept := by
        refine List.mem_filter.mpr ⟨hpep, ?_⟩
        show D.contains p.file = true
        rw [hpf]
        exact List.elem_iff.mpr hf
      have hpm : p ∈ m1 := by
        rw [hm1]
        exact (List.mem_insertionSort profileLE).mpr (List.mem_append.mpr (Or.inl hpk))
      exact List.mem_map.mpr ⟨p, hpm, hpf⟩
    | false =>
      have hmem : f ∈ newA := by
        refine List.mem_filter.mpr ⟨hf, ?_⟩
        rw [hin]
        rfl
      have haz : analyzeCognitiveSignature f ∈ m1 := by
        rw [hm1]
        exact (List.mem_insertionSort profileLE).mpr
          (List.mem_append.mpr (Or.inr (List.mem_map.mpr ⟨f, hmem, rfl⟩)))
      exact List.mem_map.mpr ⟨analyzeCognitiveSignature f, haz, rfl⟩
  have hsorted : List.Sorted profileLE m1 := by
    rw [hm1]
    exact List.sorted_insertionSort profileLE _
  have hkept2 : m1.filter (fun p => D.contains p.file) = m1 :=
    List.filter_eq_self.mpr hfile
  have hnew2 : D.filter (fun f => !((m1.map (fun p => p.file)).dedup.contains f)) = [] := by
    refine List.filter_eq_nil_iff.mpr ?_
    intro f hf
    have hmem : f ∈ (m1.map (fun p => p.file)).dedup := List.mem_dedup.mpr (hcover f hf)
    have hc : (m1.map (fun p => p.file)).dedup.contains f = true := List.elem_iff.mpr hmem
    simp only [hc, Bool.not_true]
    exact Bool.false_ne_true
  have horph2 : (m1.map (fun p => p.file)).dedup.filter (fun f => !(D.contains f)) = [] := by
    refine List.filter_eq_nil_iff.mpr ?_
    intro f hf
    obtain ⟨p, hpm, hpf⟩ := List.mem_map.mp (List.mem_dedup.mp hf)
    have hc := hfile p hpm
    rw [hpf] at hc
    simp only [hc, Bool.not_true]
    exact Bool.false_ne_true
  refine ⟨m1, rfl, rfl, ?_, ?_, ?_⟩
  · have heq : (synchronizeCognitiveManifest dir (some m1) true .noFault).manifest
        = .content (sortProfilesByName
            (m1.filter (fun p => D.contains p.file)
              ++ (D.filter (fun f =>
                    !((m1.map (fun p => p.file)).dedup.contains f))).map
                  analyzeCognitiveSignature)) := rfl
    rw [heq, hkept2, hnew2]
    simp only [List.map_nil, List.append_nil]
    exact congrArg ManifestFile.content (List.Sorted.insertionSort_eq hsorted)
  · show D.filter (fun f => !((m1.map (fun p => p.file)).dedup.contains f)) = []
    exact hnew2
  · show (m1.map (fun p => p.file)).dedup.filter (fun f => !(D.contains f)) = []
    exact horph2

end CodeDeck
